import Mathlib

/-!
Verification of the iterated prisoner dilemma simulator
(`iterative_prisoner_dilemma.py`).

The Python module is embedded shallowly:
  - the `Action` enum becomes an inductive type, with the payoff rule
    `Action.compute_payoff` translated clause by clause;
  - `StrategyReport` becomes a structure whose histogram is a total
    function `Action → Nat` (the lookup semantics of `defaultdict(int)`:
    a key never written reads as `0`); `average_gain` returns `Option ℚ`,
    with `none` standing for the `ZeroDivisionError` raised by `/` when
    `n_rounds = 0`;
  - a strategy object is split into a behaviour record `Strategy σ`
    (the methods of the abstract base class) and a private state of
    type `σ`; the base-class default `register_opponent_action` is a
    no-op, kept as the field default;
  - `IPDEngine` carries both behaviours, both states and both reports;
    `play_round` is a pure state transformer and `play_game` iterates it
    `n_turns.toNat` times, matching `for _ in range(n_turns)` which runs
    zero iterations for every non-positive argument;
  - `Report.__str__` becomes `Report.render`, returning `Option String`:
    `none` models the `ZeroDivisionError` propagating out of the
    f-string when an `average_gain` access fails.
-/

namespace IPD

/-- Embedding of the Python enum `Action` with members COOPERATE and DEFECT. -/
inductive Action where
  | cooperate
  | defect
deriving DecidableEq, Repr

/-- Python qualified display name of an action, used by `ReplayStrategy` repr. -/
def Action.pyname : Action → String
  | .cooperate => "Action.COOPERATE"
  | .defect => "Action.DEFECT"

/-- Embedding of `Action.compute_payoff`: the fixed payoff matrix, returning
the pair (gain of self, gain of the other player). -/
def Action.compute_payoff : Action → Action → Int × Int
  | .cooperate, .cooperate => (3, 3)
  | .defect, .cooperate => (5, 0)
  | .cooperate, .defect => (0, 5)
  | .defect, .defect => (1, 1)

/-- Embedding of the Python class `StrategyReport`: running total gain and a
per-action occurrence count.  The histogram is the lookup function of the
`defaultdict(int)`: actions never recorded read as zero. -/
structure StrategyReport where
  total_gain : Int
  action_histogram : Action → Nat

/-- Fresh report, as produced by `StrategyReport.__init__`. -/
def StrategyReport.init : StrategyReport :=
  { total_gain := 0, action_histogram := fun _ => 0 }

/-- Embedding of `StrategyReport.notify`: bump the histogram entry of the
played action and add the payoff to the total gain. -/
def StrategyReport.notify (r : StrategyReport) (action : Action) (payoff : Int) :
    StrategyReport :=
  { total_gain := r.total_gain + payoff,
    action_histogram := fun a =>
      if a = action then r.action_histogram a + 1 else r.action_histogram a }

/-- Embedding of the property `StrategyReport.n_rounds`: the sum of the
histogram counts (summing the two possible keys; a key never written
contributes its default `0`, exactly as `sum(values())` skips it). -/
def StrategyReport.n_rounds (r : StrategyReport) : Nat :=
  r.action_histogram Action.cooperate + r.action_histogram Action.defect

/-- Embedding of the property `StrategyReport.average_gain`:
`total_gain / n_rounds` with Python true division, which raises
`ZeroDivisionError` when `n_rounds = 0`; the raise is modelled by `none`. -/
def StrategyReport.average_gain (r : StrategyReport) : Option ℚ :=
  if r.n_rounds = 0 then none
  else some ((r.total_gain : ℚ) / (r.n_rounds : ℚ))

/-- A sequence of `notify` calls applied in order to a report (the only
mutation path a game exercises). -/
def StrategyReport.notify_all (r : StrategyReport) (l : List (Action × Int)) :
    StrategyReport :=
  l.foldl (fun acc p => acc.notify p.1 p.2) r

/-- Embedding of the abstract base class `Strategy`: a behaviour over a
private state type `σ`.  `take_turn` reads the state and picks an action;
`register_opponent_action` updates the state, defaulting to the base-class
no-op; `repr` is the display contract `__repr__`. -/
structure Strategy (σ : Type) where
  take_turn : σ → Action
  register_opponent_action : σ → Action → σ := fun s _ => s
  repr : σ → String := fun _ => "Strategy()"

/-- Embedding of `CooperativeStrategy`: always cooperates, stateless,
inherits the no-op feedback hook. -/
def CooperativeStrategy : Strategy Unit :=
  { take_turn := fun _ => Action.cooperate,
    repr := fun _ => "CooperativeStrategy()" }

/-- Embedding of `DefectStrategy`: always defects, stateless, inherits the
no-op feedback hook. -/
def DefectStrategy : Strategy Unit :=
  { take_turn := fun _ => Action.defect,
    repr := fun _ => "DefectStrategy()" }

/-- Private state of a `ReplayStrategy` instance: the configured first
action and the last opponent action seen, absent initially. -/
structure ReplayState where
  first_action : Action
  last_opponent_action : Option Action
deriving DecidableEq, Repr

/-- State of a freshly constructed `ReplayStrategy(first_action)`. -/
def ReplayState.init (first_action : Action) : ReplayState :=
  { first_action := first_action, last_opponent_action := none }

/-- Embedding of `ReplayStrategy`: plays the configured first action until
an opponent action has been registered, then always replays the most
recently registered one. -/
def ReplayStrategy : Strategy ReplayState :=
  { take_turn := fun s =>
      match s.last_opponent_action with
      | none => s.first_action
      | some a => a,
    register_opponent_action := fun s a => { s with last_opponent_action := some a },
    repr := fun s => "ReplayStrategy(" ++ s.first_action.pyname ++ ")" }

/-- Embedding of the dataclass `Report`: both participants (their final
private states stand for the Python strategy objects) and both final
strategy reports. -/
structure Report (σ₁ σ₂ : Type) where
  p1 : σ₁
  strategy_report_p1 : StrategyReport
  p2 : σ₂
  strategy_report_p2 : StrategyReport

/-- Embedding of the property `Report.winner`: `none` on an exact tie of
total gains, otherwise the player with the strictly larger total gain
(`Sum.inl` tags player 1, `Sum.inr` player 2, replacing Python object
identity). -/
def Report.winner {σ₁ σ₂ : Type} (r : Report σ₁ σ₂) : Option (σ₁ ⊕ σ₂) :=
  let gain_1 := r.strategy_report_p1.total_gain
  let gain_2 := r.strategy_report_p2.total_gain
  if gain_1 = gain_2 then none
  else if gain_1 > gain_2 then some (Sum.inl r.p1)
  else some (Sum.inr r.p2)

/-- Histogram rendering used by `Report.render` (the text stands in for the
`defaultdict` repr; its exact shape is presentational only). -/
def histText (h : Action → Nat) : String :=
  "cooperate: " ++ toString (h Action.cooperate) ++
  ", defect: " ++ toString (h Action.defect)

/-- Text of a rational average gain, shown as numerator/denominator. -/
def ratText (q : ℚ) : String :=
  toString q.num ++ "/" ++ toString q.den

/-- Embedding of `Report.__str__`: assembles the textual summary.  The
f-string evaluates `average_gain` of both players unconditionally, so the
rendering fails (returns `none`, standing for the propagated
`ZeroDivisionError`) whenever either average is undefined. -/
def Report.render {σ₁ σ₂ : Type} (st1 : Strategy σ₁) (st2 : Strategy σ₂)
    (r : Report σ₁ σ₂) : Option String :=
  let win_str : String :=
    match r.winner with
    | some (Sum.inl _) => "(P1)"
    | some (Sum.inr _) => "(P2)"
    | none => ""
  let winner_text : String :=
    match r.winner with
    | some (Sum.inl p) => st1.repr p
    | some (Sum.inr p) => st2.repr p
    | none => "None"
  match r.strategy_report_p1.average_gain, r.strategy_report_p2.average_gain with
  | some av1, some av2 =>
      some ("\nWinner: " ++ winner_text ++ " " ++ win_str ++
        "\nNumber of rounds: " ++ toString r.strategy_report_p1.n_rounds ++
        "\nAverage gain of P1: " ++ ratText av1 ++
        "\nAverage gain of P2: " ++ ratText av2 ++
        "\nAction histogram of P1: " ++ histText r.strategy_report_p1.action_histogram ++
        "\nAction histogram of P2: " ++ histText r.strategy_report_p2.action_histogram ++
        "\n")
  | _, _ => none

/-- Embedding of the class `IPDEngine`: both behaviours, both private
strategy states, both reports. -/
structure IPDEngine (σ₁ σ₂ : Type) where
  p1 : Strategy σ₁
  s1 : σ₁
  p2 : Strategy σ₂
  s2 : σ₂
  report_1 : StrategyReport
  report_2 : StrategyReport

/-- Embedding of `IPDEngine.__init__`: a fresh engine holds the two
participants and two fresh reports. -/
def IPDEngine.init {σ₁ σ₂ : Type} (p1 : Strategy σ₁) (s1 : σ₁)
    (p2 : Strategy σ₂) (s2 : σ₂) : IPDEngine σ₁ σ₂ :=
  { p1 := p1, s1 := s1, p2 := p2, s2 := s2,
    report_1 := StrategyReport.init, report_2 := StrategyReport.init }

/-- Embedding of `IPDEngine.play_round`: query both strategies, compute the
payoff pair, notify both reports, then feed each player the opponent action. -/
def IPDEngine.play_round {σ₁ σ₂ : Type} (e : IPDEngine σ₁ σ₂) : IPDEngine σ₁ σ₂ :=
  let act_p1 := e.p1.take_turn e.s1
  let act_p2 := e.p2.take_turn e.s2
  let payoff := act_p1.compute_payoff act_p2
  { e with
    s1 := e.p1.register_opponent_action e.s1 act_p2,
    s2 := e.p2.register_opponent_action e.s2 act_p1,
    report_1 := e.report_1.notify act_p1 payoff.1,
    report_2 := e.report_2.notify act_p2 payoff.2 }

/-- Sequential execution of `n` rounds, the loop body of `play_game`. -/
def IPDEngine.play_rounds {σ₁ σ₂ : Type} (e : IPDEngine σ₁ σ₂) : Nat → IPDEngine σ₁ σ₂
  | 0 => e
  | n + 1 => (e.play_rounds n).play_round

/-- Embedding of `IPDEngine.play_game` with a caller-supplied round count:
`for _ in range(n_turns)` runs `n_turns.toNat` rounds (zero when the
argument is not positive, with no validation), then assembles the report.
The `n_turns is None` branch draws a random count and is outside this
deterministic embedding. -/
def IPDEngine.play_game {σ₁ σ₂ : Type} (e : IPDEngine σ₁ σ₂) (n_turns : Int) :
    Report σ₁ σ₂ :=
  let final := e.play_rounds n_turns.toNat
  { p1 := final.s1, strategy_report_p1 := final.report_1,
    p2 := final.s2, strategy_report_p2 := final.report_2 }

/-- Payoff pair that the next call to `play_round` would record, read off
the current engine state (used to speak about the payoff of round `k + 1`). -/
def IPDEngine.round_payoff {σ₁ σ₂ : Type} (e : IPDEngine σ₁ σ₂) : Int × Int :=
  (e.p1.take_turn e.s1).compute_payoff (e.p2.take_turn e.s2)

/-- The engine of the module entry point: `ReplayStrategy(Action.DEFECT)`
as player 1 against `CooperativeStrategy()` as player 2. -/
def replayVsCoopEngine : IPDEngine ReplayState Unit :=
  IPDEngine.init ReplayStrategy (ReplayState.init Action.defect) CooperativeStrategy ()

/-- One `notify` call records exactly one round. -/
lemma StrategyReport.n_rounds_notify (r : StrategyReport) (a : Action) (p : Int) :
    (r.notify a p).n_rounds = r.n_rounds + 1 := by
  cases a <;> simp [StrategyReport.notify, StrategyReport.n_rounds] <;> omega

/-- Each executed round adds one to both round counts. -/
lemma play_rounds_n_rounds {σ₁ σ₂ : Type} (e : IPDEngine σ₁ σ₂) (n : Nat) :
    (e.play_rounds n).report_1.n_rounds = e.report_1.n_rounds + n ∧
    (e.play_rounds n).report_2.n_rounds = e.report_2.n_rounds + n := by
  induction n with
  | zero => simp [IPDEngine.play_rounds]
  | succ n ih =>
      simp only [IPDEngine.play_rounds, IPDEngine.play_round,
        StrategyReport.n_rounds_notify, ih.1, ih.2]
      omega

/-- Histogram lookup after a sequence of notifications counts occurrences. -/
lemma notify_all_histogram (l : List (Action × Int)) (r : StrategyReport) (a : Action) :
    (r.notify_all l).action_histogram a =
      r.action_histogram a + (l.map Prod.fst).count a := by
  induction l generalizing r with
  | nil => simp [StrategyReport.notify_all]
  | cons x xs ih =>
      have hstep : r.notify_all (x :: xs) = (r.notify x.1 x.2).notify_all xs := rfl
      rw [hstep, ih]
      by_cases hax : a = x.1 <;>
        simp [StrategyReport.notify, hax, List.count_cons] <;> omega

/-- C1: the payoff function realises exactly the fixed matrix:
Cooperate/Cooperate gives (3,3), Defect/Cooperate gives (5,0),
Cooperate/Defect gives (0,5) and Defect/Defect gives (1,1). -/
theorem payoff_matrix_values :
    Action.compute_payoff Action.cooperate Action.cooperate = (3, 3) ∧
    Action.compute_payoff Action.defect Action.cooperate = (5, 0) ∧
    Action.compute_payoff Action.cooperate Action.defect = (0, 5) ∧
    Action.compute_payoff Action.defect Action.defect = (1, 1) :=
  ⟨rfl, rfl, rfl, rfl⟩

/-- C9: the payoff function is symmetric under swapping both arguments and
both outputs: `compute_payoff a b` is the reversed pair of
`compute_payoff b a`. -/
theorem payoff_symmetric (a b : Action) :
    a.compute_payoff b = ((b.compute_payoff a).2, (b.compute_payoff a).1) := by
  cases a <;> cases b <;> rfl

/-- C5: a Replay(firstAction) strategy returns firstAction on its first
turn (no feedback registered yet), returns the most recently registered
opponent action on every later turn, and registering feedback changes
nothing but the last-seen opponent action. -/
theorem replay_strategy_spec :
    (∀ f : Action, ReplayStrategy.take_turn (ReplayState.init f) = f) ∧
    (∀ (s : ReplayState) (a : Action),
      ReplayStrategy.take_turn (ReplayStrategy.register_opponent_action s a) = a) ∧
    (∀ (s : ReplayState) (a : Action),
      (ReplayStrategy.register_opponent_action s a).first_action = s.first_action ∧
      (ReplayStrategy.register_opponent_action s a).last_opponent_action = some a) :=
  ⟨fun _ => rfl, fun _ _ => rfl, fun _ _ => ⟨rfl, rfl⟩⟩

/-- C6: `average_gain` is the total gain divided by the round count when at
least one round was recorded, and fails (models the `ZeroDivisionError`)
when the round count is zero. -/
theorem average_gain_spec (r : StrategyReport) :
    (1 ≤ r.n_rounds →
      r.average_gain = some ((r.total_gain : ℚ) / (r.n_rounds : ℚ))) ∧
    (r.n_rounds = 0 → r.average_gain = none) := by
  constructor
  · intro h
    have h0 : r.n_rounds ≠ 0 := by omega
    simp [StrategyReport.average_gain, h0]
  · intro h
    simp [StrategyReport.average_gain, h]

/-- Report after a single cooperate round worth 3 points. -/
def oneRoundReport : StrategyReport := StrategyReport.init.notify Action.cooperate 3

/-- Witness for the average-gain specification on a one-round report. -/
theorem average_gain_spec_witness : oneRoundReport.average_gain = some 3 := by
  have h := (average_gain_spec oneRoundReport).1 (by decide)
  rw [h]
  norm_num [oneRoundReport, StrategyReport.init, StrategyReport.notify,
    StrategyReport.n_rounds]
  norm_num [show (Action.defect = Action.cooperate) = False from by simp]

/-- C4: the winner is player 1 exactly on a strictly larger player-1 total
gain, player 2 on a strictly smaller one, and absent exactly on a tie. -/
theorem winner_spec {σ₁ σ₂ : Type} (r : Report σ₁ σ₂) :
    (r.winner = none ↔
      r.strategy_report_p1.total_gain = r.strategy_report_p2.total_gain) ∧
    (r.strategy_report_p1.total_gain > r.strategy_report_p2.total_gain →
      r.winner = some (Sum.inl r.p1)) ∧
    (r.strategy_report_p1.total_gain < r.strategy_report_p2.total_gain →
      r.winner = some (Sum.inr r.p2)) := by
  simp only [Report.winner]
  split_ifs with h1 h2
  · exact ⟨by simp [h1], fun hgt => absurd h1 (by omega),
      fun hlt => absurd h1 (by omega)⟩
  · exact ⟨by simp [h1], fun _ => rfl, fun hlt => absurd hlt (by omega)⟩
  · exact ⟨by simp [h1], fun hgt => absurd hgt h2, fun _ => rfl⟩

/-- Report with player-1 total 3 and player-2 total 0 (one round recorded
each, so the reports are well formed). -/
def p1AheadReport : Report Unit Unit :=
  { p1 := (), strategy_report_p1 := StrategyReport.init.notify Action.defect 3,
    p2 := (), strategy_report_p2 := StrategyReport.init.notify Action.defect 0 }

/-- Witness for the winner specification: player 1 wins 3 against 0. -/
theorem winner_spec_witness : p1AheadReport.winner = some (Sum.inl ()) :=
  (winner_spec p1AheadReport).2.1 (by norm_num [p1AheadReport,
    StrategyReport.notify, StrategyReport.init])

/-- C8: once at least one action is recorded, the histogram maps every
action variant to its occurrence count among the notified actions, zero for
a variant never played. -/
theorem histogram_default_counts (l : List (Action × Int)) (h : l ≠ []) (a : Action) :
    (StrategyReport.init.notify_all l).action_histogram a = (l.map Prod.fst).count a := by
  have hh := notify_all_histogram l StrategyReport.init a
  simpa [StrategyReport.init] using hh

/-- Witness for the histogram counts after one cooperate notification. -/
theorem histogram_default_counts_witness :
    (StrategyReport.init.notify_all [(Action.cooperate, 3)]).action_histogram
        Action.defect = 0 ∧
    (StrategyReport.init.notify_all [(Action.cooperate, 3)]).action_histogram
        Action.cooperate = 1 := by
  constructor
  · have h := histogram_default_counts [(Action.cooperate, 3)] (by simp) Action.defect
    simpa using h
  · have h := histogram_default_counts [(Action.cooperate, 3)] (by simp) Action.cooperate
    simpa using h

/-- C7 counterexample: `play_game` with the negative round count -1 does
not fail: it runs the loop zero times and returns a normal report whose
round counts are zero. -/
theorem negative_turns_returns_report :
    (IPDEngine.init CooperativeStrategy () CooperativeStrategy ()).play_game (-1) =
      { p1 := (), strategy_report_p1 := StrategyReport.init,
        p2 := (), strategy_report_p2 := StrategyReport.init } ∧
    ((IPDEngine.init CooperativeStrategy () CooperativeStrategy ()).play_game
        (-1)).strategy_report_p1.n_rounds = 0 :=
  ⟨rfl, rfl⟩

/-- C7 amended: for every negative round count, `play_game` silently
executes zero rounds and returns the report of a fresh engine (no
invalid-argument failure occurs). -/
theorem negative_turns_silent_zero_rounds {σ₁ σ₂ : Type} (st1 : Strategy σ₁) (s1 : σ₁)
    (st2 : Strategy σ₂) (s2 : σ₂) (n : Int) (h : n < 0) :
    (IPDEngine.init st1 s1 st2 s2).play_game n =
      { p1 := s1, strategy_report_p1 := StrategyReport.init,
        p2 := s2, strategy_report_p2 := StrategyReport.init } := by
  have h0 : n.toNat = 0 := Int.toNat_of_nonpos (le_of_lt h)
  simp [IPDEngine.play_game, h0, IPDEngine.play_rounds, IPDEngine.init]

/-- Witness for the amended negative-round-count behaviour at -5. -/
theorem negative_turns_silent_zero_rounds_witness :
    (IPDEngine.init CooperativeStrategy () DefectStrategy ()).play_game (-5) =
      { p1 := (), strategy_report_p1 := StrategyReport.init,
        p2 := (), strategy_report_p2 := StrategyReport.init } :=
  negative_turns_silent_zero_rounds CooperativeStrategy () DefectStrategy () (-5)
    (by norm_num)

/-- C10: rendering a report in which both players recorded zero rounds
fails (returns `none`, the model of the `ZeroDivisionError` raised while
the rendering evaluates the average gains). -/
theorem render_zero_rounds_fails {σ₁ σ₂ : Type} (st1 : Strategy σ₁) (st2 : Strategy σ₂)
    (r : Report σ₁ σ₂) (h1 : r.strategy_report_p1.n_rounds = 0)
    (h2 : r.strategy_report_p2.n_rounds = 0) :
    r.render st1 st2 = none := by
  have ha : r.strategy_report_p1.average_gain = none := by
    simp [StrategyReport.average_gain, h1]
  simp [Report.render, ha]

/-- Report of a zero-round game between two cooperative strategies. -/
def zeroRoundsReport : Report Unit Unit :=
  (IPDEngine.init CooperativeStrategy () CooperativeStrategy ()).play_game 0

/-- Witness that rendering the zero-round game report fails. -/
theorem render_zero_rounds_fails_witness :
    zeroRoundsReport.render CooperativeStrategy CooperativeStrategy = none :=
  render_zero_rounds_fails CooperativeStrategy CooperativeStrategy zeroRoundsReport
    rfl rfl

/-- C2: a game of `n` rounds on a fresh engine leaves both reports with
round count `n`, both histograms summing to `n`, and hence equal round
counts for the two players. -/
theorem round_count_invariant {σ₁ σ₂ : Type} (st1 : Strategy σ₁) (s1 : σ₁)
    (st2 : Strategy σ₂) (s2 : σ₂) (n : Nat) :
    ((IPDEngine.init st1 s1 st2 s2).play_game (n : Int)).strategy_report_p1.n_rounds = n ∧
    ((IPDEngine.init st1 s1 st2 s2).play_game (n : Int)).strategy_report_p2.n_rounds = n ∧
    ((IPDEngine.init st1 s1 st2 s2).play_game (n : Int)).strategy_report_p1.action_histogram
        Action.cooperate +
      ((IPDEngine.init st1 s1 st2 s2).play_game (n : Int)).strategy_report_p1.action_histogram
        Action.defect = n ∧
    ((IPDEngine.init st1 s1 st2 s2).play_game (n : Int)).strategy_report_p2.action_histogram
        Action.cooperate +
      ((IPDEngine.init st1 s1 st2 s2).play_game (n : Int)).strategy_report_p2.action_histogram
        Action.defect = n ∧
    ((IPDEngine.init st1 s1 st2 s2).play_game (n : Int)).strategy_report_p1.n_rounds =
      ((IPDEngine.init st1 s1 st2 s2).play_game (n : Int)).strategy_report_p2.n_rounds := by
  have h := play_rounds_n_rounds (IPDEngine.init st1 s1 st2 s2) n
  have hg1 : ((IPDEngine.init st1 s1 st2 s2).play_game (n : Int)).strategy_report_p1 =
      ((IPDEngine.init st1 s1 st2 s2).play_rounds n).report_1 := by
    simp [IPDEngine.play_game]
  have hg2 : ((IPDEngine.init st1 s1 st2 s2).play_game (n : Int)).strategy_report_p2 =
      ((IPDEngine.init st1 s1 st2 s2).play_rounds n).report_2 := by
    simp [IPDEngine.play_game]
  have h0 : (IPDEngine.init st1 s1 st2 s2).report_1.n_rounds = 0 := rfl
  have h0b : (IPDEngine.init st1 s1 st2 s2).report_2.n_rounds = 0 := rfl
  have hn1 : ((IPDEngine.init st1 s1 st2 s2).play_game (n : Int)).strategy_report_p1.n_rounds
      = n := by rw [hg1, h.1, h0]; omega
  have hn2 : ((IPDEngine.init st1 s1 st2 s2).play_game (n : Int)).strategy_report_p2.n_rounds
      = n := by rw [hg2, h.2, h0b]; omega
  exact ⟨hn1, hn2, hn1, hn2, by rw [hn1, hn2]⟩

/-- Pointwise characterisation suffices for report equality. -/
lemma strategyReport_eq (r s : StrategyReport)
    (ht : r.total_gain = s.total_gain)
    (hc : r.action_histogram Action.cooperate = s.action_histogram Action.cooperate)
    (hd : r.action_histogram Action.defect = s.action_histogram Action.defect) :
    r = s := by
  obtain ⟨t1, f1⟩ := r
  obtain ⟨t2, f2⟩ := s
  simp only [StrategyReport.mk.injEq]
  refine ⟨ht, ?_⟩
  funext a
  cases a
  · exact hc
  · exact hd

/-- Fieldwise characterisation suffices for engine equality. -/
lemma engine_eq {σ₁ σ₂ : Type} (e f : IPDEngine σ₁ σ₂)
    (hp1 : e.p1 = f.p1) (hs1 : e.s1 = f.s1) (hp2 : e.p2 = f.p2) (hs2 : e.s2 = f.s2)
    (hr1 : e.report_1 = f.report_1) (hr2 : e.report_2 = f.report_2) : e = f := by
  cases e
  cases f
  simp_all

/-- Engine state after `k` rounds of Replay(Defect) against Cooperative. -/
def replayCoopAfter (k : Nat) : IPDEngine ReplayState Unit :=
  replayVsCoopEngine.play_rounds k

/-- Closed form of the Replay(Defect) vs Cooperative engine after `k + 1`
rounds: Replay has seen a cooperation, defected once and cooperated `k`
times for `5 + 3k` points; Cooperative cooperated `k + 1` times for `3k`. -/
def replayCoopClosed (k : Nat) : IPDEngine ReplayState Unit :=
  { p1 := ReplayStrategy,
    s1 := { first_action := Action.defect, last_opponent_action := some Action.cooperate },
    p2 := CooperativeStrategy,
    s2 := (),
    report_1 :=
      { total_gain := 5 + 3 * k,
        action_histogram := fun a =>
          match a with
          | Action.cooperate => k
          | Action.defect => 1 },
    report_2 :=
      { total_gain := 3 * k,
        action_histogram := fun a =>
          match a with
          | Action.cooperate => k + 1
          | Action.defect => 0 } }

/-- One more round of the closed form stays in closed form: both players
cooperate and gain 3 points. -/
lemma play_round_closed (k : Nat) :
    (replayCoopClosed k).play_round = replayCoopClosed (k + 1) := by
  apply engine_eq
  · rfl
  · rfl
  · rfl
  · rfl
  · apply strategyReport_eq
    · have hl : ((replayCoopClosed k).play_round).report_1.total_gain
          = 5 + 3 * (k : Int) + 3 := rfl
      have hr : (replayCoopClosed (k + 1)).report_1.total_gain
          = 5 + 3 * ((k + 1 : Nat) : Int) := rfl
      rw [hl, hr]
      push_cast
      ring
    · rfl
    · rfl
  · apply strategyReport_eq
    · have hl : ((replayCoopClosed k).play_round).report_2.total_gain
          = 3 * (k : Int) + 3 := rfl
      have hr : (replayCoopClosed (k + 1)).report_2.total_gain
          = 3 * ((k + 1 : Nat) : Int) := rfl
      rw [hl, hr]
      push_cast
      ring
    · rfl
    · rfl

/-- After any positive number of rounds the Replay(Defect) vs Cooperative
engine is in closed form. -/
lemma replayCoopAfter_closed (k : Nat) :
    replayCoopAfter (k + 1) = replayCoopClosed k := by
  induction k with
  | zero =>
      apply engine_eq
      · rfl
      · rfl
      · rfl
      · rfl
      · exact strategyReport_eq _ _ (by decide) (by decide) (by decide)
      · exact strategyReport_eq _ _ (by decide) (by decide) (by decide)
  | succ k ih =>
      have hstep : replayCoopAfter (k + 1 + 1) = (replayCoopAfter (k + 1)).play_round := rfl
      rw [hstep, ih]
      exact play_round_closed k

/-- C3: in Replay(Defect) versus Cooperative over 100 rounds, round 1 pays
(5,0), every later round pays (3,3), and the final report gives player 1
total 302, player 2 total 297, with player 1 the winner. -/
theorem replay_vs_cooperative_100 :
    (replayCoopAfter 0).round_payoff = (5, 0) ∧
    (∀ i : Fin 99, (replayCoopAfter (i.val + 1)).round_payoff = (3, 3)) ∧
    (replayVsCoopEngine.play_game 100).strategy_report_p1.total_gain = 302 ∧
    (replayVsCoopEngine.play_game 100).strategy_report_p2.total_gain = 297 ∧
    (replayVsCoopEngine.play_game 100).winner =
      some (Sum.inl ((replayVsCoopEngine.play_game 100).p1)) := by
  have h100 : replayCoopAfter 100 = replayCoopClosed 99 := by
    have h := replayCoopAfter_closed 99
    norm_num at h
    exact h
  have hr : replayVsCoopEngine.play_game 100 =
      { p1 := (replayCoopClosed 99).s1,
        strategy_report_p1 := (replayCoopClosed 99).report_1,
        p2 := (replayCoopClosed 99).s2,
        strategy_report_p2 := (replayCoopClosed 99).report_2 } := by
    show ({ p1 := (replayCoopAfter 100).s1,
            strategy_report_p1 := (replayCoopAfter 100).report_1,
            p2 := (replayCoopAfter 100).s2,
            strategy_report_p2 := (replayCoopAfter 100).report_2 } :
        Report ReplayState Unit) = _
    rw [h100]
  refine ⟨rfl, ?_, ?_, ?_, ?_⟩
  · intro i
    rw [replayCoopAfter_closed i.val]
    rfl
  · rw [hr]
    decide
  · rw [hr]
    decide
  · rw [hr]
    decide

end IPD
